import Mathlib

/-!
Verification of the attestation converter
(src/convert_github_attestation.py, function
extract_provenance_from_github_attestation) against its specification.

The converter is modelled as a pure function from the text content of the input file to a record holding the boolean result, the ordered list of file
writes performed (path, whole content), and the console messages printed.
Python values decoded by json.loads are modelled by the inductive `Json`;
JSON numbers are restricted to integers (the attestation format uses no
fractional numbers, and no claim concerns them), and lone surrogates in
string escapes are rejected rather than kept, since Lean strings hold only
unicode scalar values.  Exact Python exception message texts are
approximated where they are not fixed by the source.
-/

set_option maxRecDepth 100000

namespace ZobraSlsa

/-- JSON values as produced by Python json.loads.  Object fields keep
insertion order and have unique keys, matching Python dict semantics
(a duplicate key in the input overwrites the value in place). -/
inductive Json where
  | null
  | bool (b : Bool)
  | num (n : Int)
  | str (s : String)
  | arr (elems : List Json)
  | obj (fields : List (String × Json))
deriving Inhabited

mutual

/-- Structural equality of JSON values (Python == on decoded JSON data,
restricted to the shapes the model can produce). -/
def Json.beq : Json → Json → Bool
  | .null, .null => true
  | .bool a, .bool b => a == b
  | .num a, .num b => a == b
  | .str a, .str b => a == b
  | .arr a, .arr b => Json.beqList a b
  | .obj a, .obj b => Json.beqFields a b
  | _, _ => false

def Json.beqList : List Json → List Json → Bool
  | [], [] => true
  | x :: xs, y :: ys => Json.beq x y && Json.beqList xs ys
  | _, _ => false

def Json.beqFields : List (String × Json) → List (String × Json) → Bool
  | [], [] => true
  | (k, v) :: xs, (l, w) :: ys => k == l && Json.beq v w && Json.beqFields xs ys
  | _, _ => false

end

/-- Field lookup in the association list of a JSON object (Python dict lookup;
keys are unique so the first match is the only one). -/
def lookupField : List (String × Json) → String → Option Json
  | [], _ => none
  | (k, v) :: rest, key => if k = key then some v else lookupField rest key

/-- Dict insertion used by the JSON parser: a repeated key overwrites the
value in place, a new key is appended (Python dict semantics). -/
def insertField : List (String × Json) → String → Json → List (String × Json)
  | [], k, v => [(k, v)]
  | (k', v') :: rest, k, v =>
      if k' = k then (k', v) :: rest else (k', v') :: insertField rest k v

/-- Python truthiness of a decoded JSON value (`if not x`). -/
def Json.isTruthy : Json → Bool
  | .null => false
  | .bool b => b
  | .num n => n != 0
  | .str s => !s.isEmpty
  | .arr xs => !xs.isEmpty
  | .obj fs => !fs.isEmpty

/-- `dict.get(key, default)` as the Python code uses it: on a dict it is a
lookup with default, on any other value it raises AttributeError (there is
no `get` attribute).  The error is surfaced as the message string of the
exception that the top-level handler of the converter would catch. -/
def Json.getD : Json → String → Json → Except String Json
  | .obj fs, k, d => .ok ((lookupField fs k).getD d)
  | _, _, _ => .error "AttributeError: object has no attribute get"

/-- The apostrophe character, built numerically so that string literals in
this file stay free of quote characters. -/
def squote : String := String.singleton (Char.ofNat 39)

theorem Json.beq_iff : ∀ a b : Json, Json.beq a b = true ↔ a = b := by
  apply Json.beq.induct
    (fun a b => Json.beq a b = true ↔ a = b)
    (fun xs ys => Json.beqFields xs ys = true ↔ xs = ys)
    (fun xs ys => Json.beqList xs ys = true ↔ xs = ys)
  case case7 =>
    intro t x h1 h2 h3 h4 h5 h6
    cases t <;> cases x <;>
      first
        | (exfalso; solve_by_elim)
        | simp [Json.beq]
  case case10 =>
    intro t x h1 h2
    cases t <;> cases x <;>
      first
        | (exfalso; solve_by_elim)
        | simp [Json.beqList]
  case case13 =>
    intro t x h1 h2
    rcases t with _ | ⟨⟨k, v⟩, xs⟩ <;> rcases x with _ | ⟨⟨l, w⟩, ys⟩ <;>
      first
        | (exfalso; solve_by_elim)
        | simp [Json.beqFields]
  all_goals intros
  all_goals simp_all [Json.beq, Json.beqList, Json.beqFields]

instance : DecidableEq Json := fun a b => decidable_of_iff _ (Json.beq_iff a b)

mutual

/-- Python str() of a decoded JSON value, used by the f-strings in the
source.  Containers render via repr; the rendering of nested strings is
the usual single-quoted form (escapes inside are not modelled, no claim
depends on them). -/
def pyStr : Json → String
  | .str s => s
  | j => pyRepr j

def pyRepr : Json → String
  | .null => "None"
  | .bool true => "True"
  | .bool false => "False"
  | .num n => toString n
  | .str s => squote ++ s ++ squote
  | .arr xs => "[" ++ pyReprList xs ++ "]"
  | .obj fs => "\x7b" ++ pyReprFields fs ++ "\x7d"

def pyReprList : List Json → String
  | [] => ""
  | [x] => pyRepr x
  | x :: xs => pyRepr x ++ ", " ++ pyReprList xs

def pyReprFields : List (String × Json) → String
  | [] => ""
  | [(k, v)] => squote ++ k ++ squote ++ ": " ++ pyRepr v
  | (k, v) :: fs => squote ++ k ++ squote ++ ": " ++ pyRepr v ++ ", " ++ pyReprFields fs

end

/-! ## Base64 (Python base64.b64decode / b64encode on byte strings) -/

/-- Character of a 6-bit group in the standard base64 alphabet. -/
def b64CharOfNat (n : Nat) : Char :=
  if n < 26 then Char.ofNat (65 + n)
  else if n < 52 then Char.ofNat (97 + (n - 26))
  else if n < 62 then Char.ofNat (48 + (n - 52))
  else if n = 62 then '+'
  else '/'

/-- Index of a character in the standard base64 alphabet, none if absent. -/
def b64IndexOfChar (c : Char) : Option Nat :=
  if 'A' ≤ c ∧ c ≤ 'Z' then some (c.toNat - 65)
  else if 'a' ≤ c ∧ c ≤ 'z' then some (c.toNat - 97 + 26)
  else if '0' ≤ c ∧ c ≤ '9' then some (c.toNat - 48 + 52)
  else if c = '+' then some 62
  else if c = '/' then some 63
  else none

/-- Decode 4-character base64 quanta to bytes.  A padded quantum ends the
data (binascii stops at the pad); a quantum with padding in the first two
positions, or a count of characters not divisible by four, is an error. -/
def b64DecodeQuanta : List Char → Except String (List Nat)
  | [] => .ok []
  | a :: b :: c :: d :: rest =>
    match b64IndexOfChar a, b64IndexOfChar b with
    | some x, some y =>
      if c = '=' then
        if d = '=' then .ok [x * 4 + y / 16]
        else .error "Invalid base64-encoded string"
      else
        match b64IndexOfChar c with
        | some z =>
          if d = '=' then .ok [x * 4 + y / 16, (y % 16) * 16 + z / 4]
          else
            match b64IndexOfChar d with
            | some w =>
              match b64DecodeQuanta rest with
              | .ok bs => .ok ((x * 4 + y / 16) :: ((y % 16) * 16 + z / 4) ::
                               ((z % 4) * 64 + w) :: bs)
              | .error e => .error e
            | none => .error "Invalid base64-encoded string"
        | none => .error "Invalid base64-encoded string"
    | _, _ => .error "Invalid base64-encoded string"
  | _ => .error "Incorrect padding"

/-- Python base64.b64decode on a str argument: the string must be pure
ASCII (it is encoded to bytes first), characters outside the alphabet and
padding are discarded, then quanta are decoded. -/
def b64decode (s : String) : Except String (List Nat) :=
  if s.data.any (fun c => 128 ≤ c.toNat) then
    .error "ValueError: string argument should contain only ASCII characters"
  else
    b64DecodeQuanta (s.data.filter (fun c => (b64IndexOfChar c).isSome || c = '='))

/-- Python base64.b64encode of a byte string, as ASCII text. -/
def b64encodeBytes : List Nat → String
  | [] => ""
  | [b1] =>
      String.mk [b64CharOfNat (b1 / 4), b64CharOfNat (b1 % 4 * 16)] ++ "=="
  | [b1, b2] =>
      String.mk [b64CharOfNat (b1 / 4), b64CharOfNat (b1 % 4 * 16 + b2 / 16),
                 b64CharOfNat (b2 % 16 * 4)] ++ "="
  | b1 :: b2 :: b3 :: rest =>
      String.mk [b64CharOfNat (b1 / 4), b64CharOfNat (b1 % 4 * 16 + b2 / 16),
                 b64CharOfNat (b2 % 16 * 4 + b3 / 64), b64CharOfNat (b3 % 64)] ++
      b64encodeBytes rest

/-! ## UTF-8 decoding (Python bytes.decode with the strict utf-8 codec) -/

def isUtf8Cont (b : Nat) : Bool := 128 ≤ b && b ≤ 191

/-- Strict UTF-8 decoding of a byte list: rejects overlong encodings,
surrogates and out-of-range sequences, exactly as the CPython utf-8 codec. -/
def utf8DecodeAux : List Nat → Except String (List Char)
  | [] => .ok []
  | b :: rest =>
    if b < 128 then
      match utf8DecodeAux rest with
      | .ok cs => .ok (Char.ofNat b :: cs)
      | .error e => .error e
    else if b < 194 then .error "UnicodeDecodeError"
    else if b ≤ 223 then
      match rest with
      | b2 :: rest2 =>
        if isUtf8Cont b2 then
          match utf8DecodeAux rest2 with
          | .ok cs => .ok (Char.ofNat ((b - 192) * 64 + (b2 - 128)) :: cs)
          | .error e => .error e
        else .error "UnicodeDecodeError"
      | [] => .error "UnicodeDecodeError"
    else if b ≤ 239 then
      match rest with
      | b2 :: b3 :: rest3 =>
        if (if b = 224 then 160 ≤ b2 && b2 ≤ 191
            else if b = 237 then 128 ≤ b2 && b2 ≤ 159
            else isUtf8Cont b2) && isUtf8Cont b3 then
          match utf8DecodeAux rest3 with
          | .ok cs =>
              .ok (Char.ofNat ((b - 224) * 4096 + (b2 - 128) * 64 + (b3 - 128)) :: cs)
          | .error e => .error e
        else .error "UnicodeDecodeError"
      | _ => .error "UnicodeDecodeError"
    else if b ≤ 244 then
      match rest with
      | b2 :: b3 :: b4 :: rest4 =>
        if (if b = 240 then 144 ≤ b2 && b2 ≤ 191
            else if b = 244 then 128 ≤ b2 && b2 ≤ 143
            else isUtf8Cont b2) && isUtf8Cont b3 && isUtf8Cont b4 then
          match utf8DecodeAux rest4 with
          | .ok cs =>
              .ok (Char.ofNat ((b - 240) * 262144 + (b2 - 128) * 4096 +
                               (b3 - 128) * 64 + (b4 - 128)) :: cs)
          | .error e => .error e
        else .error "UnicodeDecodeError"
      | _ => .error "UnicodeDecodeError"
    else .error "UnicodeDecodeError"

def utf8Decode (bs : List Nat) : Except String String :=
  match utf8DecodeAux bs with
  | .ok cs => .ok (String.mk cs)
  | .error e => .error e

/-! ## JSON serialization (Python json.dumps, default ensure_ascii) -/

def hexDigitChar (n : Nat) : Char :=
  if n < 10 then Char.ofNat (48 + n) else Char.ofNat (87 + n)

def hex4 (n : Nat) : String :=
  String.mk [hexDigitChar (n / 4096 % 16), hexDigitChar (n / 256 % 16),
             hexDigitChar (n / 16 % 16), hexDigitChar (n % 16)]

/-- json.dumps escaping of one character: ensure_ascii is the default, so
every character outside printable ASCII becomes a \u escape (a pair of
surrogate escapes above the basic plane). -/
def escChar (c : Char) : String :=
  if c = '"' then "\\\""
  else if c = '\\' then "\\\\"
  else if c = '\n' then "\\n"
  else if c = '\r' then "\\r"
  else if c = '\t' then "\\t"
  else if c.toNat = 8 then "\\b"
  else if c.toNat = 12 then "\\f"
  else if c.toNat < 32 || 127 ≤ c.toNat then
    if c.toNat < 65536 then "\\u" ++ hex4 c.toNat
    else
      "\\u" ++ hex4 (55296 + (c.toNat - 65536) / 1024) ++
      "\\u" ++ hex4 (56320 + (c.toNat - 65536) % 1024)
  else String.singleton c

def jsonEscape (s : String) : String := String.join (s.data.map escChar)

mutual

/-- json.dump with separators comma and colon: compact single-line JSON,
as used for the primary (DSSE) output file. -/
def dumpsCompact : Json → String
  | .null => "null"
  | .bool true => "true"
  | .bool false => "false"
  | .num n => toString n
  | .str s => "\"" ++ jsonEscape s ++ "\""
  | .arr xs => "[" ++ dumpsCompactList xs ++ "]"
  | .obj fs => "\x7b" ++ dumpsCompactFields fs ++ "\x7d"

def dumpsCompactList : List Json → String
  | [] => ""
  | [x] => dumpsCompact x
  | x :: xs => dumpsCompact x ++ "," ++ dumpsCompactList xs

def dumpsCompactFields : List (String × Json) → String
  | [] => ""
  | [(k, v)] => "\"" ++ jsonEscape k ++ "\":" ++ dumpsCompact v
  | (k, v) :: fs =>
      "\"" ++ jsonEscape k ++ "\":" ++ dumpsCompact v ++ "," ++ dumpsCompactFields fs

end

def indentOf (level : Nat) : String := String.mk (List.replicate (2 * level) ' ')

mutual

/-- json.dump with indent 2: the pretty form used for the plain-statement
and bundle output files. -/
def dumpsIndent : Nat → Json → String
  | _, .null => "null"
  | _, .bool true => "true"
  | _, .bool false => "false"
  | _, .num n => toString n
  | _, .str s => "\"" ++ jsonEscape s ++ "\""
  | _, .arr [] => "[]"
  | level, .arr (x :: xs) =>
      "[\n" ++ dumpsIndentList (level + 1) (x :: xs) ++ "\n" ++ indentOf level ++ "]"
  | _, .obj [] => "\x7b\x7d"
  | level, .obj (f :: fs) =>
      "\x7b\n" ++ dumpsIndentFields (level + 1) (f :: fs) ++ "\n" ++ indentOf level ++ "\x7d"

def dumpsIndentList : Nat → List Json → String
  | _, [] => ""
  | level, [x] => indentOf level ++ dumpsIndent level x
  | level, x :: xs =>
      indentOf level ++ dumpsIndent level x ++ ",\n" ++ dumpsIndentList level xs

def dumpsIndentFields : Nat → List (String × Json) → String
  | _, [] => ""
  | level, [(k, v)] =>
      indentOf level ++ "\"" ++ jsonEscape k ++ "\": " ++ dumpsIndent level v
  | level, (k, v) :: fs =>
      indentOf level ++ "\"" ++ jsonEscape k ++ "\": " ++ dumpsIndent level v ++
      ",\n" ++ dumpsIndentFields level fs

end

/-! ## PEM formatting (source lines 59 to 63) -/

/-- Fuelled helper for chunks64; the fuel (one unit per chunk, the input
length is always enough) keeps the recursion structural so that terms
reduce definitionally. -/
def chunksAux : Nat → List Char → List String
  | 0, _ => []
  | _, [] => []
  | fuel + 1, c :: rest => String.mk (c :: rest.take 63) :: chunksAux fuel (rest.drop 63)

/-- The 64-character lines of the PEM body: the loop of the source
`for i in range(0, len(cert_pem), 64)` taking `cert_pem[i:i+64]`. -/
def chunks64 (cs : List Char) : List String := chunksAux cs.length cs

/-- PEM text exactly as the source assembles it: header line, each body
chunk followed by a newline, then the footer marker with no trailing
newline. -/
def pemFormat (certB64 : String) : String :=
  "-----BEGIN CERTIFICATE-----\n" ++
  String.join ((chunks64 certB64.data).map (fun line => line ++ "\n")) ++
  "-----END CERTIFICATE-----"

/-! ## Path and line handling -/

/-- pathlib.Path.with_suffix for the plain relative/absolute file names the
converter uses: the extension after the last dot of the final path
component is replaced (a name without a dot, or a leading-dot name with no
other dot, just gets the suffix appended). -/
def withSuffix (p : String) (suffix : String) : String :=
  let cs := p.data
  let nameLen := (cs.reverse.takeWhile (fun c => c ≠ '/')).length
  let dir := cs.take (cs.length - nameLen)
  let name := cs.drop (cs.length - nameLen)
  let extLen := (name.reverse.takeWhile (fun c => c ≠ '.')).length
  let stem :=
    if name.length ≤ extLen + 1 then name
    else name.take (name.length - extLen - 1)
  String.mk (dir ++ stem) ++ suffix

/-- f.readline() reads through the first newline; the trailing newline is
then removed by strip(), so the model keeps the text before it. -/
def firstLine (s : String) : String :=
  String.mk (s.data.takeWhile (fun c => c ≠ '\n'))

def isPySpace (c : Char) : Bool :=
  c = ' ' || c = '\t' || c = '\n' || c = '\r' || c.toNat = 11 || c.toNat = 12

/-- str.strip() with no argument: remove leading and trailing whitespace. -/
def pyStrip (s : String) : String :=
  String.mk (((s.data.dropWhile isPySpace).reverse.dropWhile isPySpace).reverse)

/-! ## JSON parsing (Python json.loads)

Whitespace is the four JSON whitespace characters; strings use the JSON
escapes including \u with surrogate pairs (lone surrogates, which CPython
tolerates, are rejected since Lean chars are unicode scalar values);
numbers are restricted to integers, a fractional or exponent part is a
parse error in the model. -/

def skipWs : List Char → List Char
  | [] => []
  | c :: rest =>
      if c = ' ' || c = '\t' || c = '\n' || c = '\r' then skipWs rest else c :: rest

def parseHexDigit (c : Char) : Option Nat :=
  if '0' ≤ c ∧ c ≤ '9' then some (c.toNat - 48)
  else if 'a' ≤ c ∧ c ≤ 'f' then some (c.toNat - 87)
  else if 'A' ≤ c ∧ c ≤ 'F' then some (c.toNat - 55)
  else none

/-- Body of a JSON string literal, after the opening quote: returns the
decoded characters and the input after the closing quote. -/
def parseStringBody : List Char → Except String (List Char × List Char)
  | [] => .error "Unterminated string"
  | c :: rest =>
    if c = '"' then .ok ([], rest)
    else if c = '\\' then
      match rest with
      | [] => .error "Unterminated string"
      | e :: rest2 =>
        if e = '"' || e = '\\' || e = '/' then
          match parseStringBody rest2 with
          | .ok (cs, r) => .ok (e :: cs, r)
          | .error err => .error err
        else if e = 'b' then
          match parseStringBody rest2 with
          | .ok (cs, r) => .ok (Char.ofNat 8 :: cs, r)
          | .error err => .error err
        else if e = 'f' then
          match parseStringBody rest2 with
          | .ok (cs, r) => .ok (Char.ofNat 12 :: cs, r)
          | .error err => .error err
        else if e = 'n' then
          match parseStringBody rest2 with
          | .ok (cs, r) => .ok ('\n' :: cs, r)
          | .error err => .error err
        else if e = 'r' then
          match parseStringBody rest2 with
          | .ok (cs, r) => .ok ('\r' :: cs, r)
          | .error err => .error err
        else if e = 't' then
          match parseStringBody rest2 with
          | .ok (cs, r) => .ok ('\t' :: cs, r)
          | .error err => .error err
        else if e = 'u' then
          match rest2 with
          | h1 :: h2 :: h3 :: h4 :: rest3 =>
            match parseHexDigit h1, parseHexDigit h2, parseHexDigit h3, parseHexDigit h4 with
            | some d1, some d2, some d3, some d4 =>
              let n := d1 * 4096 + d2 * 256 + d3 * 16 + d4
              if n < 55296 || 57343 < n then
                match parseStringBody rest3 with
                | .ok (cs, r) => .ok (Char.ofNat n :: cs, r)
                | .error err => .error err
              else if n ≤ 56319 then
                match rest3 with
                | bs :: u :: h5 :: h6 :: h7 :: h8 :: rest4 =>
                  if bs = '\\' && u = 'u' then
                    match parseHexDigit h5, parseHexDigit h6, parseHexDigit h7, parseHexDigit h8 with
                    | some d5, some d6, some d7, some d8 =>
                      let m := d5 * 4096 + d6 * 256 + d7 * 16 + d8
                      if 56320 ≤ m ∧ m ≤ 57343 then
                        match parseStringBody rest4 with
                        | .ok (cs, r) =>
                            .ok (Char.ofNat (65536 + (n - 55296) * 1024 + (m - 56320)) :: cs, r)
                        | .error err => .error err
                      else .error "Unpaired surrogate escape"
                    | _, _, _, _ => .error "Invalid unicode escape"
                  else .error "Unpaired surrogate escape"
                | _ => .error "Unpaired surrogate escape"
              else .error "Unpaired surrogate escape"
            | _, _, _, _ => .error "Invalid unicode escape"
          | _ => .error "Invalid unicode escape"
        else .error "Invalid escape"
    else if c.toNat < 32 then .error "Invalid control character"
    else
      match parseStringBody rest with
      | .ok (cs, r) => .ok (c :: cs, r)
      | .error err => .error err

/-- Leading decimal digits of the input and the remainder. -/
def parseDigits : List Char → List Char × List Char
  | [] => ([], [])
  | c :: rest =>
      if '0' ≤ c ∧ c ≤ '9' then
        let (ds, r) := parseDigits rest
        (c :: ds, r)
      else ([], c :: rest)

def digitsToNat (ds : List Char) : Nat :=
  ds.foldl (fun acc c => acc * 10 + (c.toNat - 48)) 0

/-- A JSON number token.  Like the CPython scanner, the integer part is
`0` or a nonzero digit followed by digits; a following fractional or
exponent part would make a float, which this model does not cover. -/
def parseNumber (cs : List Char) : Except String (Json × List Char) :=
  let (neg, cs1) :=
    match cs with
    | '-' :: rest => (true, rest)
    | _ => (false, cs)
  match parseDigits cs1 with
  | ([], _) => .error "Expecting value"
  | (d :: ds, rest) =>
    let (intDigits, rest2) :=
      if d = '0' then ([d], ds ++ rest) else (d :: ds, rest)
    match rest2 with
    | '.' :: _ => .error "non-integer JSON numbers are outside this model"
    | 'e' :: _ => .error "non-integer JSON numbers are outside this model"
    | 'E' :: _ => .error "non-integer JSON numbers are outside this model"
    | _ =>
      let n : Int := Int.ofNat (digitsToNat intDigits)
      .ok (Json.num (if neg then -n else n), rest2)

mutual

/-- One JSON value at the head of the input (no leading whitespace),
fuelled for termination; jsonLoads supplies ample fuel. -/
def parseValue : Nat → List Char → Except String (Json × List Char)
  | 0, _ => .error "Fuel exhausted"
  | fuel + 1, cs =>
    match cs with
    | [] => .error "Expecting value"
    | c :: rest =>
      if c = '"' then
        match parseStringBody rest with
        | .ok (content, rest2) => .ok (Json.str (String.mk content), rest2)
        | .error e => .error e
      else if c = '[' then
        match skipWs rest with
        | ']' :: rest2 => .ok (Json.arr [], rest2)
        | cs1 =>
          match parseArrayItems fuel cs1 with
          | .ok (xs, rest2) => .ok (Json.arr xs, rest2)
          | .error e => .error e
      else if c = '\x7b' then
        match skipWs rest with
        | '\x7d' :: rest2 => .ok (Json.obj [], rest2)
        | cs1 =>
          match parseObjItems fuel [] cs1 with
          | .ok (fs, rest2) => .ok (Json.obj fs, rest2)
          | .error e => .error e
      else if c = 't' then
        match rest with
        | 'r' :: 'u' :: 'e' :: rest2 => .ok (Json.bool true, rest2)
        | _ => .error "Expecting value"
      else if c = 'f' then
        match rest with
        | 'a' :: 'l' :: 's' :: 'e' :: rest2 => .ok (Json.bool false, rest2)
        | _ => .error "Expecting value"
      else if c = 'n' then
        match rest with
        | 'u' :: 'l' :: 'l' :: rest2 => .ok (Json.null, rest2)
        | _ => .error "Expecting value"
      else if c = '-' || ('0' ≤ c ∧ c ≤ '9') then parseNumber (c :: rest)
      else .error "Expecting value"

/-- Array elements after the opening bracket (nonempty array). -/
def parseArrayItems : Nat → List Char → Except String (List Json × List Char)
  | 0, _ => .error "Fuel exhausted"
  | fuel + 1, cs =>
    match parseValue fuel (skipWs cs) with
    | .error e => .error e
    | .ok (v, rest) =>
      match skipWs rest with
      | ',' :: rest2 =>
        match parseArrayItems fuel rest2 with
        | .ok (vs, rest3) => .ok (v :: vs, rest3)
        | .error e => .error e
      | ']' :: rest2 => .ok ([v], rest2)
      | _ => .error "Expecting comma delimiter"

/-- Object members after the opening brace (nonempty object), built left to
right with dict insertion so a duplicate key overwrites in place. -/
def parseObjItems : Nat → List (String × Json) → List Char →
    Except String (List (String × Json) × List Char)
  | 0, _, _ => .error "Fuel exhausted"
  | fuel + 1, acc, cs =>
    match skipWs cs with
    | '"' :: rest =>
      match parseStringBody rest with
      | .error e => .error e
      | .ok (kcs, rest2) =>
        match skipWs rest2 with
        | ':' :: rest3 =>
          match parseValue fuel (skipWs rest3) with
          | .error e => .error e
          | .ok (v, rest4) =>
            let acc2 := insertField acc (String.mk kcs) v
            match skipWs rest4 with
            | ',' :: rest5 => parseObjItems fuel acc2 rest5
            | '\x7d' :: rest5 => .ok (acc2, rest5)
            | _ => .error "Expecting comma delimiter"
        | _ => .error "Expecting colon delimiter"
    | _ => .error "Expecting property name enclosed in double quotes"

end

/-- Python json.loads: one JSON document with optional surrounding
whitespace; anything after the document is an error. -/
def jsonLoads (s : String) : Except String Json :=
  match parseValue (2 * s.length + 2) (skipWs s.data) with
  | .error e => .error e
  | .ok (j, rest) => if (skipWs rest).isEmpty then .ok j else .error "Extra data"

/-! ## The converter

src/convert_github_attestation.py, extract_provenance_from_github_attestation
(lines 16 to 125).  One constructor of `Msg` per print statement in the
function; file writes are recorded in order as (path, whole content), since
every output is opened fresh and written in one piece. -/

/-- Console output of the converter, one constructor per print call. -/
inductive Msg where
  | certSaved (certFile : String)
  | successBanner
  | inputLabel (p : String)
  | dsseLabel (p : String)
  | plainLabel (p : String)
  | bundleLabel (p : String)
  | provenanceInfoHeader
  | predicateTypeInfo (v : Json)
  | subjectsCount (n : Nat)
  | subjectLine (idx : Nat) (name : Json)
  | builderIdLine (v : Json)
  | errorMsg (e : String)
deriving DecidableEq

/-- Outcome of one invocation: the boolean return value, the files written
(in order, with their whole content) and the console messages. -/
structure Result where
  success : Bool
  writes : List (String × String)
  msgs : List Msg
deriving DecidableEq

/-- The top-level `except Exception` handler (lines 123 to 125): the writes
performed so far are kept on disk, the exception message is printed and the
function returns False. -/
def failResult (ws : List (String × String)) (ms : List Msg) (e : String) : Result :=
  { success := false, writes := ws, msgs := ms ++ [Msg.errorMsg e] }

def slsaPredicateType : String := "https://slsa.dev/provenance/v1"

/-- base64.b64decode demands a str (or bytes) argument; any other decoded
JSON value raises TypeError. -/
def b64decodeJson : Json → Except String (List Nat)
  | .str s => b64decode s
  | _ => .error "TypeError: argument should be a bytes-like object or ASCII string"

/-- Lines 41: base64-decode the payload and decode the bytes as UTF-8. -/
def decodePayload (j : Json) : Except String String :=
  match b64decodeJson j with
  | .ok bytes => utf8Decode bytes
  | .error e => .error e

/-- Lines 53 to 69: when rawBytes is truthy, decode it, re-encode, format
as PEM and write the sibling .crt file, printing a notice. -/
def certStep (cert_raw_bytes : Json) (output_file : String) :
    Except String (List (String × String) × List Msg) :=
  if cert_raw_bytes.isTruthy then
    match b64decodeJson cert_raw_bytes with
    | .error e => .error e
    | .ok cert_bytes =>
      let cert_pem := b64encodeBytes cert_bytes
      let cert_file := withSuffix output_file ".crt"
      .ok ([(cert_file, pemFormat cert_pem)], [Msg.certSaved cert_file])
  else .ok ([], [])

/-- Line 118: the chained .get calls computing the builder id, each mapping
a missing key to an empty dict and the final one defaulting to Unknown. -/
def builderIdOf (statement : Json) : Except String Json :=
  match Json.getD statement "predicate" (.obj []) with
  | .error e => .error e
  | .ok p1 =>
    match Json.getD p1 "runDetails" (.obj []) with
    | .error e => .error e
    | .ok p2 =>
      match Json.getD p2 "builder" (.obj []) with
      | .error e => .error e
      | .ok p3 => Json.getD p3 "id" (.str "Unknown")

/-- Python len() on a decoded JSON value (line 113). -/
def pyLen : Json → Except String Nat
  | .str s => .ok s.length
  | .arr xs => .ok xs.length
  | .obj fs => .ok fs.length
  | _ => .error "TypeError: object has no len"

/-- Python iteration over a decoded JSON value (line 115): lists yield
elements, strings yield one-character strings, dicts yield their keys. -/
def iterItems : Json → Except String (List Json)
  | .arr xs => .ok xs
  | .str s => .ok (s.data.map (fun c => Json.str (String.singleton c)))
  | .obj fs => .ok (fs.map (fun kv => Json.str kv.1))
  | _ => .error "TypeError: object is not iterable"

/-- Lines 115 to 116: one line per subject, 1-based index, name defaulting
to Unknown; a subject without a .get attribute aborts the loop with the
messages printed so far. -/
def summarySubjects : Nat → List Json → List Msg × Option String
  | _, [] => ([], none)
  | i, s :: rest =>
    match Json.getD s "name" (.str "Unknown") with
    | .error e => ([], some e)
    | .ok name =>
      let (ms, err) := summarySubjects (i + 1) rest
      (Msg.subjectLine i name :: ms, err)

/-- Lines 112 to 119: the provenance-information block after the header
line, together with the exception message if a step of it raises. -/
def summaryMsgs (statement : Json) : List Msg × Option String :=
  match Json.getD statement "predicateType" .null with
  | .error e => ([], some e)
  | .ok pt =>
    match Json.getD statement "subject" (.arr []) with
    | .error e => ([Msg.predicateTypeInfo pt], some e)
    | .ok subj =>
      match pyLen subj with
      | .error e => ([Msg.predicateTypeInfo pt], some e)
      | .ok n =>
        match iterItems subj with
        | .error e => ([Msg.predicateTypeInfo pt, Msg.subjectsCount n], some e)
        | .ok items =>
          match summarySubjects 1 items with
          | (sms, some e) =>
              ([Msg.predicateTypeInfo pt, Msg.subjectsCount n] ++ sms, some e)
          | (sms, none) =>
            match builderIdOf statement with
            | .error e =>
                ([Msg.predicateTypeInfo pt, Msg.subjectsCount n] ++ sms, some e)
            | .ok v =>
                ([Msg.predicateTypeInfo pt, Msg.subjectsCount n] ++ sms ++
                 [Msg.builderIdLine v], none)

/-- The whole function, lines 24 to 125.  `fileContent` is the text content
of the input file at `attestation_file`; only its first line is consumed. -/
def extract_provenance_from_github_attestation
    (attestation_file : String) (fileContent : String) (output_file : String) : Result :=
  -- lines 25 to 27: read and parse the stripped first line
  match jsonLoads (pyStrip (firstLine fileContent)) with
  | .error e => failResult [] [] e
  | .ok attestation_data =>
  -- lines 30 to 33
  match Json.getD attestation_data "dsseEnvelope" (.obj []) with
  | .error e => failResult [] [] e
  | .ok dsse_envelope =>
  if ¬ dsse_envelope.isTruthy then
    failResult [] [] "No DSSE envelope found in attestation"
  else
  -- lines 36 to 38
  match Json.getD dsse_envelope "payload" (.str "") with
  | .error e => failResult [] [] e
  | .ok payload_b64 =>
  if ¬ payload_b64.isTruthy then
    failResult [] [] "No payload found in DSSE envelope"
  else
  -- lines 41 to 42
  match decodePayload payload_b64 with
  | .error e => failResult [] [] e
  | .ok payload_json =>
  match jsonLoads payload_json with
  | .error e => failResult [] [] e
  | .ok statement =>
  -- lines 45 to 46
  match Json.getD statement "predicateType" .null with
  | .error e => failResult [] [] e
  | .ok predType =>
  if predType ≠ Json.str slsaPredicateType then
    failResult [] [] ("Not a SLSA provenance statement: " ++ pyStr predType)
  else
  -- lines 49 to 51
  match Json.getD attestation_data "verificationMaterial" (.obj []) with
  | .error e => failResult [] [] e
  | .ok verification_material =>
  match Json.getD verification_material "certificate" (.obj []) with
  | .error e => failResult [] [] e
  | .ok certificate =>
  match Json.getD certificate "rawBytes" (.str "") with
  | .error e => failResult [] [] e
  | .ok cert_raw_bytes =>
  -- lines 53 to 69
  match certStep cert_raw_bytes output_file with
  | .error e => failResult [] [] e
  | .ok (ws0, ms0) =>
  -- lines 74 to 78
  match Json.getD dsse_envelope "payloadType" (.str "application/vnd.in-toto+json") with
  | .error e => failResult ws0 ms0 e
  | .ok payloadType =>
  match Json.getD dsse_envelope "signatures" (.arr []) with
  | .error e => failResult ws0 ms0 e
  | .ok signatures =>
  let dsse_format := Json.obj [("payload", payload_b64), ("payloadType", payloadType),
                               ("signatures", signatures)]
  -- lines 84 to 88
  let bundle_format := Json.obj
    [("mediaType", Json.str "application/vnd.dev.sigstore.bundle.v0.3+json"),
     ("verificationMaterial", verification_material),
     ("dsseEnvelope", dsse_envelope)]
  let plain_file := withSuffix output_file ".slsa.json"
  let bundle_file := withSuffix output_file ".bundle.json"
  -- lines 91 to 102: the three JSON outputs, in order
  let ws1 := ws0 ++ [(output_file, dumpsCompact dsse_format ++ "\n"),
                     (plain_file, dumpsIndent 0 statement),
                     (bundle_file, dumpsIndent 0 bundle_format)]
  -- lines 104 to 111
  let ms1 := ms0 ++ [Msg.successBanner, Msg.inputLabel attestation_file,
                     Msg.dsseLabel output_file, Msg.plainLabel plain_file,
                     Msg.bundleLabel bundle_file, Msg.provenanceInfoHeader]
  -- lines 112 to 121
  match summaryMsgs statement with
  | (sms, some e) => failResult ws1 (ms1 ++ sms) e
  | (sms, none) => { success := true, writes := ws1, msgs := ms1 ++ sms }

/-- The builder id as the specification describes it: the value of the
predicate.runDetails.builder.id path of the statement when every segment of the
path is present, and Unknown when a segment is missing.  (A segment that is
present but not an object is mapped to Unknown here as well; in the code
such a statement makes the whole run fail, so the two readings agree on
every run that prints a summary.) -/
def claimedBuilderId (statement : Json) : Json :=
  match statement with
  | .obj fs =>
    match lookupField fs "predicate" with
    | some (.obj fs2) =>
      match lookupField fs2 "runDetails" with
      | some (.obj fs3) =>
        match lookupField fs3 "builder" with
        | some (.obj fs4) =>
          match lookupField fs4 "id" with
          | some v => v
          | none => .str "Unknown"
        | _ => .str "Unknown"
      | _ => .str "Unknown"
    | _ => .str "Unknown"
  | _ => .str "Unknown"

/-! ## Claims -/

/-- C5: for every input whose first-line JSON object has no dsseEnvelope
key, the converter reports failure and creates no output files at all; the
only console output is the error diagnostic. -/
theorem C5_missing_envelope_no_outputs
    (p content out : String) (fs : List (String × Json))
    (hparse : jsonLoads (pyStrip (firstLine content)) = .ok (Json.obj fs))
    (hkey : lookupField fs "dsseEnvelope" = none) :
    (extract_provenance_from_github_attestation p content out).success = false ∧
    (extract_provenance_from_github_attestation p content out).writes = [] ∧
    (extract_provenance_from_github_attestation p content out).msgs =
      [Msg.errorMsg "No DSSE envelope found in attestation"] := by
  unfold extract_provenance_from_github_attestation
  simp [hparse, hkey, Json.getD, Json.isTruthy, failResult]

theorem C5_missing_envelope_no_outputs_witness :
    (extract_provenance_from_github_attestation "a.jsonl" "\x7b\"x\":1\x7d" "o.jsonl").success
      = false ∧
    (extract_provenance_from_github_attestation "a.jsonl" "\x7b\"x\":1\x7d" "o.jsonl").writes
      = [] ∧
    (extract_provenance_from_github_attestation "a.jsonl" "\x7b\"x\":1\x7d" "o.jsonl").msgs
      = [Msg.errorMsg "No DSSE envelope found in attestation"] :=
  C5_missing_envelope_no_outputs "a.jsonl" "\x7b\"x\":1\x7d" "o.jsonl"
    [("x", Json.num 1)] rfl rfl

/-- C7: the converter only reads the first line of the input file; two
input contents with identical first lines give the exact same result
(success flag, written files and messages), whatever follows the first
newline. -/
theorem C7_only_first_line_read
    (p c1 c2 out : String) (h : firstLine c1 = firstLine c2) :
    extract_provenance_from_github_attestation p c1 out =
    extract_provenance_from_github_attestation p c2 out := by
  unfold extract_provenance_from_github_attestation
  rw [h]

theorem C7_only_first_line_read_witness :
    extract_provenance_from_github_attestation "a.jsonl" "null\nsome trailing garbage" "o.jsonl" =
    extract_provenance_from_github_attestation "a.jsonl" "null\n\x7b\"other\":2\x7d" "o.jsonl" :=
  C7_only_first_line_read "a.jsonl" "null\nsome trailing garbage" "null\n\x7b\"other\":2\x7d"
    "o.jsonl" rfl

/-- C8: on every input the converter returns a boolean: either True, or
False with the message of the caught exception reported as the final console
message; no exception escapes. -/
theorem C8_exceptions_caught_reported
    (p content out : String) :
    (extract_provenance_from_github_attestation p content out).success = true ∨
    ((extract_provenance_from_github_attestation p content out).success = false ∧
     ∃ ms e, (extract_provenance_from_github_attestation p content out).msgs =
       ms ++ [Msg.errorMsg e]) := by
  unfold extract_provenance_from_github_attestation
  repeat' split
  all_goals first
    | exact Or.inl rfl
    | exact Or.inr ⟨rfl, _, _, rfl⟩

/-- C10: an input whose dsseEnvelope is present but the empty object, or
whose dsseEnvelope.payload is present but the empty string, is rejected
exactly like the corresponding missing case: failure, no writes, and the
very same diagnostic that the missing case produces (the source tests
truthiness, not key presence). -/
theorem C10_empty_treated_as_missing
    (p content out : String) (att : Json)
    (hparse : jsonLoads (pyStrip (firstLine content)) = .ok att)
    (hcase : Json.getD att "dsseEnvelope" (Json.obj []) = .ok (Json.obj []) ∨
             (∃ env, Json.getD att "dsseEnvelope" (Json.obj []) = .ok env ∧
                     env.isTruthy = true ∧
                     Json.getD env "payload" (Json.str "") = .ok (Json.str ""))) :
    (extract_provenance_from_github_attestation p content out).success = false ∧
    (extract_provenance_from_github_attestation p content out).writes = [] ∧
    ((extract_provenance_from_github_attestation p content out).msgs =
       [Msg.errorMsg "No DSSE envelope found in attestation"] ∨
     (extract_provenance_from_github_attestation p content out).msgs =
       [Msg.errorMsg "No payload found in DSSE envelope"]) := by
  unfold extract_provenance_from_github_attestation
  rcases hcase with henv | ⟨env, henv, htru, hpay⟩
  · simp [hparse, henv, Json.isTruthy, failResult]
  · simp only [hparse, henv, htru, hpay]
    simp [Json.isTruthy, failResult, show "".isEmpty = true from rfl]

theorem C10_empty_treated_as_missing_witness :
    (extract_provenance_from_github_attestation "a.jsonl"
        "\x7b\"dsseEnvelope\":\x7b\x7d\x7d" "o.jsonl").success = false ∧
    (extract_provenance_from_github_attestation "a.jsonl"
        "\x7b\"dsseEnvelope\":\x7b\x7d\x7d" "o.jsonl").writes = [] ∧
    ((extract_provenance_from_github_attestation "a.jsonl"
        "\x7b\"dsseEnvelope\":\x7b\x7d\x7d" "o.jsonl").msgs =
       [Msg.errorMsg "No DSSE envelope found in attestation"] ∨
     (extract_provenance_from_github_attestation "a.jsonl"
        "\x7b\"dsseEnvelope\":\x7b\x7d\x7d" "o.jsonl").msgs =
       [Msg.errorMsg "No payload found in DSSE envelope"]) :=
  C10_empty_treated_as_missing "a.jsonl" "\x7b\"dsseEnvelope\":\x7b\x7d\x7d" "o.jsonl"
    (Json.obj [("dsseEnvelope", Json.obj [])]) rfl (Or.inl rfl)

/-- C1: whenever the decoded payload parses as JSON but its predicateType
is not the literal SLSA provenance v1 string (whether the field holds a
different value, is missing, or the statement is not an object), the
converter fails, and at that point no output file of any kind has been
written. -/
theorem C1_predicate_mismatch_fails_before_writes
    (p content out : String) (att env pb : Json) (pj : String) (stmt : Json)
    (h1 : jsonLoads (pyStrip (firstLine content)) = .ok att)
    (h2 : Json.getD att "dsseEnvelope" (Json.obj []) = .ok env)
    (h3 : env.isTruthy = true)
    (h4 : Json.getD env "payload" (Json.str "") = .ok pb)
    (h5 : pb.isTruthy = true)
    (h6 : decodePayload pb = .ok pj)
    (h7 : jsonLoads pj = .ok stmt)
    (h8 : ∀ pt, Json.getD stmt "predicateType" Json.null = .ok pt →
          pt ≠ Json.str slsaPredicateType) :
    (extract_provenance_from_github_attestation p content out).success = false ∧
    (extract_provenance_from_github_attestation p content out).writes = [] := by
  unfold extract_provenance_from_github_attestation
  rcases hpt : Json.getD stmt "predicateType" Json.null with e | pt
  · simp only [h1, h2, h3, h4, h5, h6, h7, hpt]
    simp [failResult]
  · simp only [h1, h2, h3, h4, h5, h6, h7, hpt]
    simp [failResult, h8 pt hpt]

theorem C1_predicate_mismatch_fails_before_writes_witness :
    (extract_provenance_from_github_attestation "a.jsonl"
      "\x7b\"dsseEnvelope\":\x7b\"payload\":\"eyJwcmVkaWNhdGVUeXBlIjoieCJ9\"\x7d\x7d"
      "o.jsonl").success = false ∧
    (extract_provenance_from_github_attestation "a.jsonl"
      "\x7b\"dsseEnvelope\":\x7b\"payload\":\"eyJwcmVkaWNhdGVUeXBlIjoieCJ9\"\x7d\x7d"
      "o.jsonl").writes = [] :=
  C1_predicate_mismatch_fails_before_writes "a.jsonl"
    "\x7b\"dsseEnvelope\":\x7b\"payload\":\"eyJwcmVkaWNhdGVUeXBlIjoieCJ9\"\x7d\x7d"
    "o.jsonl"
    (Json.obj [("dsseEnvelope", Json.obj [("payload",
        Json.str "eyJwcmVkaWNhdGVUeXBlIjoieCJ9")])])
    (Json.obj [("payload", Json.str "eyJwcmVkaWNhdGVUeXBlIjoieCJ9")])
    (Json.str "eyJwcmVkaWNhdGVUeXBlIjoieCJ9")
    "\x7b\"predicateType\":\"x\"\x7d"
    (Json.obj [("predicateType", Json.str "x")])
    rfl rfl rfl rfl rfl rfl rfl
    (fun pt hpt => by
      have h2 : (Except.ok (Json.str "x") : Except String Json) = Except.ok pt := hpt
      injection h2 with h3
      rw [← h3]
      decide)

/-- C4: once the run is past the certificate step, the primary output file
receives exactly the three-key object whose payload is the base64 payload
of the envelope, whose payloadType is that of the envelope or the
default application/vnd.in-toto+json when that key is missing, and whose
signatures are those of the envelope (empty when missing), serialized
as compact single-line JSON followed by a trailing newline. -/
theorem C4_dsse_output_content
    (p content out : String) (att : Json) (efs : List (String × Json))
    (pb : Json) (pj : String) (stmt vm cert raw : Json)
    (ws0 : List (String × String)) (ms0 : List Msg)
    (h1 : jsonLoads (pyStrip (firstLine content)) = .ok att)
    (h2 : Json.getD att "dsseEnvelope" (Json.obj []) = .ok (Json.obj efs))
    (h3 : (Json.obj efs).isTruthy = true)
    (h4 : lookupField efs "payload" = some pb)
    (h5 : pb.isTruthy = true)
    (h6 : decodePayload pb = .ok pj)
    (h7 : jsonLoads pj = .ok stmt)
    (h8 : Json.getD stmt "predicateType" Json.null = .ok (Json.str slsaPredicateType))
    (h9 : Json.getD att "verificationMaterial" (Json.obj []) = .ok vm)
    (h10 : Json.getD vm "certificate" (Json.obj []) = .ok cert)
    (h11 : Json.getD cert "rawBytes" (Json.str "") = .ok raw)
    (h12 : certStep raw out = .ok (ws0, ms0)) :
    ∃ plainContent bundleContent,
      (extract_provenance_from_github_attestation p content out).writes = ws0 ++
        [(out, dumpsCompact (Json.obj
            [("payload", pb),
             ("payloadType", (lookupField efs "payloadType").getD
                (Json.str "application/vnd.in-toto+json")),
             ("signatures", (lookupField efs "signatures").getD (Json.arr []))]) ++ "\n"),
         (withSuffix out ".slsa.json", plainContent),
         (withSuffix out ".bundle.json", bundleContent)] := by
  unfold extract_provenance_from_github_attestation
  have h4' : Json.getD (Json.obj efs) "payload" (Json.str "") = .ok pb := by
    simp [Json.getD, h4]
  have hptype : Json.getD (Json.obj efs) "payloadType"
      (Json.str "application/vnd.in-toto+json") =
      .ok ((lookupField efs "payloadType").getD
        (Json.str "application/vnd.in-toto+json")) := by
    simp [Json.getD]
  have hsig : Json.getD (Json.obj efs) "signatures" (Json.arr []) =
      .ok ((lookupField efs "signatures").getD (Json.arr [])) := by
    simp [Json.getD]
  simp only [h1, h2, h3, h4', h5, h6, h7, h8, h9, h10, h11, h12, hptype, hsig]
  rcases hs : summaryMsgs stmt with ⟨sms, err⟩
  rcases err with e | _ <;> simp [failResult]

/-- C6: an otherwise valid input record in which the certificate rawBytes
field is absent converts successfully, produces exactly the three JSON
output files, and writes no .crt file; the absence is not an error. -/
theorem C6_no_certificate_still_succeeds
    (p content out : String) (att : Json) (efs : List (String × Json))
    (pb : Json) (pj : String) (stmt vm : Json) (cfs : List (String × Json))
    (h1 : jsonLoads (pyStrip (firstLine content)) = .ok att)
    (h2 : Json.getD att "dsseEnvelope" (Json.obj []) = .ok (Json.obj efs))
    (h3 : (Json.obj efs).isTruthy = true)
    (h4 : lookupField efs "payload" = some pb)
    (h5 : pb.isTruthy = true)
    (h6 : decodePayload pb = .ok pj)
    (h7 : jsonLoads pj = .ok stmt)
    (h8 : Json.getD stmt "predicateType" Json.null = .ok (Json.str slsaPredicateType))
    (h9 : Json.getD att "verificationMaterial" (Json.obj []) = .ok vm)
    (h10 : Json.getD vm "certificate" (Json.obj []) = .ok (Json.obj cfs))
    (h11 : lookupField cfs "rawBytes" = none)
    (h12 : (summaryMsgs stmt).2 = none) :
    (extract_provenance_from_github_attestation p content out).success = true ∧
    ∃ c1 c2 c3,
      (extract_provenance_from_github_attestation p content out).writes =
        [(out, c1),
         (withSuffix out ".slsa.json", c2),
         (withSuffix out ".bundle.json", c3)] := by
  unfold extract_provenance_from_github_attestation
  have h4' : Json.getD (Json.obj efs) "payload" (Json.str "") = .ok pb := by
    simp [Json.getD, h4]
  have h11' : Json.getD (Json.obj cfs) "rawBytes" (Json.str "") = .ok (Json.str "") := by
    simp [Json.getD, h11]
  have hcert : certStep (Json.str "") out = .ok ([], []) := by
    simp [certStep, Json.isTruthy, show "".isEmpty = true from rfl]
  have hptype : Json.getD (Json.obj efs) "payloadType"
      (Json.str "application/vnd.in-toto+json") =
      .ok ((lookupField efs "payloadType").getD
        (Json.str "application/vnd.in-toto+json")) := by
    simp [Json.getD]
  have hsig : Json.getD (Json.obj efs) "signatures" (Json.arr []) =
      .ok ((lookupField efs "signatures").getD (Json.arr [])) := by
    simp [Json.getD]
  simp only [h1, h2, h3, h4', h5, h6, h7, h8, h9, h10, h11', hcert, hptype, hsig]
  rcases hs : summaryMsgs stmt with ⟨sms, err⟩
  rw [hs] at h12
  cases err with
  | some e => exact absurd h12 (by simp)
  | none => exact ⟨rfl, _, _, _, rfl⟩

theorem C4_dsse_output_content_witness :
    ∃ plainContent bundleContent,
      (extract_provenance_from_github_attestation "a.jsonl"
        "\x7b\"dsseEnvelope\":\x7b\"payload\":\"eyJwcmVkaWNhdGVUeXBlIjoiaHR0cHM6Ly9zbHNhLmRldi9wcm92ZW5hbmNlL3YxIn0=\"\x7d\x7d"
        "o.intoto.jsonl").writes = [] ++
        [("o.intoto.jsonl", dumpsCompact (Json.obj
            [("payload",
              Json.str "eyJwcmVkaWNhdGVUeXBlIjoiaHR0cHM6Ly9zbHNhLmRldi9wcm92ZW5hbmNlL3YxIn0="),
             ("payloadType",
              (lookupField [("payload",
                Json.str "eyJwcmVkaWNhdGVUeXBlIjoiaHR0cHM6Ly9zbHNhLmRldi9wcm92ZW5hbmNlL3YxIn0=")]
                "payloadType").getD (Json.str "application/vnd.in-toto+json")),
             ("signatures",
              (lookupField [("payload",
                Json.str "eyJwcmVkaWNhdGVUeXBlIjoiaHR0cHM6Ly9zbHNhLmRldi9wcm92ZW5hbmNlL3YxIn0=")]
                "signatures").getD (Json.arr []))]) ++ "\n"),
         (withSuffix "o.intoto.jsonl" ".slsa.json", plainContent),
         (withSuffix "o.intoto.jsonl" ".bundle.json", bundleContent)] :=
  C4_dsse_output_content "a.jsonl"
    "\x7b\"dsseEnvelope\":\x7b\"payload\":\"eyJwcmVkaWNhdGVUeXBlIjoiaHR0cHM6Ly9zbHNhLmRldi9wcm92ZW5hbmNlL3YxIn0=\"\x7d\x7d"
    "o.intoto.jsonl"
    (Json.obj [("dsseEnvelope", Json.obj [("payload",
      Json.str "eyJwcmVkaWNhdGVUeXBlIjoiaHR0cHM6Ly9zbHNhLmRldi9wcm92ZW5hbmNlL3YxIn0=")])])
    [("payload", Json.str "eyJwcmVkaWNhdGVUeXBlIjoiaHR0cHM6Ly9zbHNhLmRldi9wcm92ZW5hbmNlL3YxIn0=")]
    (Json.str "eyJwcmVkaWNhdGVUeXBlIjoiaHR0cHM6Ly9zbHNhLmRldi9wcm92ZW5hbmNlL3YxIn0=")
    "\x7b\"predicateType\":\"https://slsa.dev/provenance/v1\"\x7d"
    (Json.obj [("predicateType", Json.str "https://slsa.dev/provenance/v1")])
    (Json.obj []) (Json.obj []) (Json.str "") [] []
    rfl rfl rfl rfl rfl rfl rfl rfl rfl rfl rfl rfl

theorem C6_no_certificate_still_succeeds_witness :
    (extract_provenance_from_github_attestation "b.jsonl"
      "\x7b\"dsseEnvelope\":\x7b\"payload\":\"eyJwcmVkaWNhdGVUeXBlIjoiaHR0cHM6Ly9zbHNhLmRldi9wcm92ZW5hbmNlL3YxIn0=\",\"payloadType\":\"x\"\x7d,\"verificationMaterial\":\x7b\x7d\x7d"
      "p.intoto.jsonl").success = true ∧
    ∃ c1 c2 c3,
      (extract_provenance_from_github_attestation "b.jsonl"
        "\x7b\"dsseEnvelope\":\x7b\"payload\":\"eyJwcmVkaWNhdGVUeXBlIjoiaHR0cHM6Ly9zbHNhLmRldi9wcm92ZW5hbmNlL3YxIn0=\",\"payloadType\":\"x\"\x7d,\"verificationMaterial\":\x7b\x7d\x7d"
        "p.intoto.jsonl").writes =
        [("p.intoto.jsonl", c1),
         (withSuffix "p.intoto.jsonl" ".slsa.json", c2),
         (withSuffix "p.intoto.jsonl" ".bundle.json", c3)] :=
  C6_no_certificate_still_succeeds "b.jsonl"
    "\x7b\"dsseEnvelope\":\x7b\"payload\":\"eyJwcmVkaWNhdGVUeXBlIjoiaHR0cHM6Ly9zbHNhLmRldi9wcm92ZW5hbmNlL3YxIn0=\",\"payloadType\":\"x\"\x7d,\"verificationMaterial\":\x7b\x7d\x7d"
    "p.intoto.jsonl"
    (Json.obj [("dsseEnvelope", Json.obj
        [("payload",
          Json.str "eyJwcmVkaWNhdGVUeXBlIjoiaHR0cHM6Ly9zbHNhLmRldi9wcm92ZW5hbmNlL3YxIn0="),
         ("payloadType", Json.str "x")]),
      ("verificationMaterial", Json.obj [])])
    [("payload", Json.str "eyJwcmVkaWNhdGVUeXBlIjoiaHR0cHM6Ly9zbHNhLmRldi9wcm92ZW5hbmNlL3YxIn0="),
     ("payloadType", Json.str "x")]
    (Json.str "eyJwcmVkaWNhdGVUeXBlIjoiaHR0cHM6Ly9zbHNhLmRldi9wcm92ZW5hbmNlL3YxIn0=")
    "\x7b\"predicateType\":\"https://slsa.dev/provenance/v1\"\x7d"
    (Json.obj [("predicateType", Json.str "https://slsa.dev/provenance/v1")])
    (Json.obj []) []
    rfl rfl rfl rfl rfl rfl rfl rfl rfl rfl rfl rfl

/-- Inversion of a successful run: a True return means every step of the
pipeline succeeded, the predicate type was the SLSA v1 constant, and the
writes and messages of the result have exactly the shape of the success path. -/
theorem extract_success_inversion (p content out : String)
    (hs : (extract_provenance_from_github_attestation p content out).success = true) :
    ∃ att env pb pj stmt vm cert raw ws0 ms0 ptv sgv sms,
      jsonLoads (pyStrip (firstLine content)) = .ok att ∧
      Json.getD att "dsseEnvelope" (Json.obj []) = .ok env ∧
      env.isTruthy = true ∧
      Json.getD env "payload" (Json.str "") = .ok pb ∧
      pb.isTruthy = true ∧
      decodePayload pb = .ok pj ∧
      jsonLoads pj = .ok stmt ∧
      Json.getD stmt "predicateType" Json.null = .ok (Json.str slsaPredicateType) ∧
      Json.getD att "verificationMaterial" (Json.obj []) = .ok vm ∧
      Json.getD vm "certificate" (Json.obj []) = .ok cert ∧
      Json.getD cert "rawBytes" (Json.str "") = .ok raw ∧
      certStep raw out = .ok (ws0, ms0) ∧
      Json.getD env "payloadType" (Json.str "application/vnd.in-toto+json") = .ok ptv ∧
      Json.getD env "signatures" (Json.arr []) = .ok sgv ∧
      summaryMsgs stmt = (sms, none) ∧
      extract_provenance_from_github_attestation p content out =
        { success := true,
          writes := ws0 ++
            [(out, dumpsCompact (Json.obj [("payload", pb), ("payloadType", ptv),
               ("signatures", sgv)]) ++ "\n"),
             (withSuffix out ".slsa.json", dumpsIndent 0 stmt),
             (withSuffix out ".bundle.json", dumpsIndent 0 (Json.obj
               [("mediaType", Json.str "application/vnd.dev.sigstore.bundle.v0.3+json"),
                ("verificationMaterial", vm), ("dsseEnvelope", env)]))],
          msgs := (ms0 ++ [Msg.successBanner, Msg.inputLabel p, Msg.dsseLabel out,
                   Msg.plainLabel (withSuffix out ".slsa.json"),
                   Msg.bundleLabel (withSuffix out ".bundle.json"),
                   Msg.provenanceInfoHeader]) ++ sms } := by
  set r := extract_provenance_from_github_attestation p content out with hr
  clear_value r
  unfold extract_provenance_from_github_attestation at hr
  rcases hA : jsonLoads (pyStrip (firstLine content)) with e | att
  · rw [hA] at hr; rw [hr] at hs; simp [failResult] at hs
  simp only [hA] at hr
  rcases hB : Json.getD att "dsseEnvelope" (Json.obj []) with e | env
  · rw [hB] at hr; rw [hr] at hs; simp [failResult] at hs
  simp only [hB] at hr
  cases htru : env.isTruthy with
  | false =>
    rw [if_pos (by simp [htru])] at hr
    rw [hr] at hs; simp [failResult] at hs
  | true =>
  rw [if_neg (by simp [htru])] at hr
  rcases hC : Json.getD env "payload" (Json.str "") with e | pb
  · rw [hC] at hr; rw [hr] at hs; simp [failResult] at hs
  simp only [hC] at hr
  cases htru2 : pb.isTruthy with
  | false =>
    rw [if_pos (by simp [htru2])] at hr
    rw [hr] at hs; simp [failResult] at hs
  | true =>
  rw [if_neg (by simp [htru2])] at hr
  rcases hD : decodePayload pb with e | pj
  · rw [hD] at hr; rw [hr] at hs; simp [failResult] at hs
  simp only [hD] at hr
  rcases hE : jsonLoads pj with e | stmt
  · rw [hE] at hr; rw [hr] at hs; simp [failResult] at hs
  simp only [hE] at hr
  rcases hF : Json.getD stmt "predicateType" Json.null with e | pt
  · rw [hF] at hr; rw [hr] at hs; simp [failResult] at hs
  simp only [hF] at hr
  by_cases hne : pt = Json.str slsaPredicateType
  case neg =>
    rw [if_pos hne] at hr
    rw [hr] at hs; simp [failResult] at hs
  case pos =>
  rw [if_neg (by simp [hne])] at hr
  rw [hne] at hF
  rcases hG : Json.getD att "verificationMaterial" (Json.obj []) with e | vm
  · rw [hG] at hr; rw [hr] at hs; simp [failResult] at hs
  simp only [hG] at hr
  rcases hH : Json.getD vm "certificate" (Json.obj []) with e | cert
  · rw [hH] at hr; rw [hr] at hs; simp [failResult] at hs
  simp only [hH] at hr
  rcases hI : Json.getD cert "rawBytes" (Json.str "") with e | raw
  · rw [hI] at hr; rw [hr] at hs; simp [failResult] at hs
  simp only [hI] at hr
  rcases hJ : certStep raw out with e | ws0ms0
  · rw [hJ] at hr; rw [hr] at hs; simp [failResult] at hs
  obtain ⟨ws0, ms0⟩ := ws0ms0
  simp only [hJ] at hr
  rcases hK : Json.getD env "payloadType" (Json.str "application/vnd.in-toto+json")
      with e | ptv
  · rw [hK] at hr; rw [hr] at hs; simp [failResult] at hs
  simp only [hK] at hr
  rcases hL : Json.getD env "signatures" (Json.arr []) with e | sgv
  · rw [hL] at hr; rw [hr] at hs; simp [failResult] at hs
  simp only [hL] at hr
  rcases hM : summaryMsgs stmt with ⟨sms, err⟩
  cases err with
  | some e =>
    simp only [hM] at hr
    rw [hr] at hs; simp [failResult] at hs
  | none =>
  simp only [hM] at hr
  exact ⟨att, env, pb, pj, stmt, vm, cert, raw, ws0, ms0, ptv, sgv, sms,
    rfl, hB, htru, hC, htru2, hD, hE, hF, hG, hH, hI, hJ, hK, hL, hM, hr⟩

/-- C2 counterexample: a successful conversion (minimal SLSA v1 statement,
payload in compact JSON) for which base64-decoding the payload written into
the DSSE output yields the original compact statement text, while the
plain-form file holds the 2-space re-serialization — the two are not
byte-for-byte equal. -/
theorem C2_counterexample_not_byte_identical :
    (extract_provenance_from_github_attestation "a.jsonl"
      "\x7b\"dsseEnvelope\":\x7b\"payload\":\"eyJwcmVkaWNhdGVUeXBlIjoiaHR0cHM6Ly9zbHNhLmRldi9wcm92ZW5hbmNlL3YxIn0=\"\x7d\x7d"
      "out.intoto.jsonl").success = true ∧
    (extract_provenance_from_github_attestation "a.jsonl"
      "\x7b\"dsseEnvelope\":\x7b\"payload\":\"eyJwcmVkaWNhdGVUeXBlIjoiaHR0cHM6Ly9zbHNhLmRldi9wcm92ZW5hbmNlL3YxIn0=\"\x7d\x7d"
      "out.intoto.jsonl").writes =
      [("out.intoto.jsonl",
        "\x7b\"payload\":\"eyJwcmVkaWNhdGVUeXBlIjoiaHR0cHM6Ly9zbHNhLmRldi9wcm92ZW5hbmNlL3YxIn0=\",\"payloadType\":\"application/vnd.in-toto+json\",\"signatures\":[]\x7d\n"),
       ("out.intoto.slsa.json",
        "\x7b\n  \"predicateType\": \"https://slsa.dev/provenance/v1\"\n\x7d"),
       ("out.intoto.bundle.json",
        "\x7b\n  \"mediaType\": \"application/vnd.dev.sigstore.bundle.v0.3+json\",\n  \"verificationMaterial\": \x7b\x7d,\n  \"dsseEnvelope\": \x7b\n    \"payload\": \"eyJwcmVkaWNhdGVUeXBlIjoiaHR0cHM6Ly9zbHNhLmRldi9wcm92ZW5hbmNlL3YxIn0=\"\n  \x7d\n\x7d")] ∧
    decodePayload
      (Json.str "eyJwcmVkaWNhdGVUeXBlIjoiaHR0cHM6Ly9zbHNhLmRldi9wcm92ZW5hbmNlL3YxIn0=") =
      .ok "\x7b\"predicateType\":\"https://slsa.dev/provenance/v1\"\x7d" ∧
    "\x7b\"predicateType\":\"https://slsa.dev/provenance/v1\"\x7d" ≠
    "\x7b\n  \"predicateType\": \"https://slsa.dev/provenance/v1\"\n\x7d" :=
  ⟨rfl, rfl, rfl, by decide⟩

/-- C2 amended: for every successful conversion, base64-decoding the
payload written into the DSSE output yields text that parses as JSON to
exactly the Statement whose 2-space-indented serialization is the content
of the plain-form (.slsa.json) output file — the same JSON value, though
not byte-for-byte the same text. -/
theorem C2_payload_plain_roundtrip
    (p content out : String)
    (h : (extract_provenance_from_github_attestation p content out).success = true) :
    ∃ pb ptv sgv stmt pj ws0 bundleContent,
      (extract_provenance_from_github_attestation p content out).writes = ws0 ++
        [(out, dumpsCompact (Json.obj [("payload", pb), ("payloadType", ptv),
           ("signatures", sgv)]) ++ "\n"),
         (withSuffix out ".slsa.json", dumpsIndent 0 stmt),
         (withSuffix out ".bundle.json", bundleContent)] ∧
      decodePayload pb = .ok pj ∧
      jsonLoads pj = .ok stmt := by
  obtain ⟨att, env, pb, pj, stmt, vm, cert, raw, ws0, ms0, ptv, sgv, sms,
    hA, hB, htru, hC, htru2, hD, hE, hF, hG, hH, hI, hJ, hK, hL, hM, hr⟩ :=
    extract_success_inversion p content out h
  exact ⟨pb, ptv, sgv, stmt, pj, ws0, _, by rw [hr], hD, hE⟩

theorem C2_payload_plain_roundtrip_witness :
    (extract_provenance_from_github_attestation "c.jsonl"
      "\x7b\"dsseEnvelope\":\x7b\"payload\":\"eyJwcmVkaWNhdGVUeXBlIjoiaHR0cHM6Ly9zbHNhLmRldi9wcm92ZW5hbmNlL3YxIiwicHJlZGljYXRlIjp7fX0=\"\x7d\x7d"
      "q.intoto.jsonl").success = true ∧
    (∃ pb ptv sgv stmt pj ws0 bundleContent,
      (extract_provenance_from_github_attestation "c.jsonl"
        "\x7b\"dsseEnvelope\":\x7b\"payload\":\"eyJwcmVkaWNhdGVUeXBlIjoiaHR0cHM6Ly9zbHNhLmRldi9wcm92ZW5hbmNlL3YxIiwicHJlZGljYXRlIjp7fX0=\"\x7d\x7d"
        "q.intoto.jsonl").writes = ws0 ++
        [("q.intoto.jsonl", dumpsCompact (Json.obj [("payload", pb), ("payloadType", ptv),
           ("signatures", sgv)]) ++ "\n"),
         (withSuffix "q.intoto.jsonl" ".slsa.json", dumpsIndent 0 stmt),
         (withSuffix "q.intoto.jsonl" ".bundle.json", bundleContent)] ∧
      decodePayload pb = .ok pj ∧
      jsonLoads pj = .ok stmt) :=
  ⟨rfl, C2_payload_plain_roundtrip "c.jsonl"
    "\x7b\"dsseEnvelope\":\x7b\"payload\":\"eyJwcmVkaWNhdGVUeXBlIjoiaHR0cHM6Ly9zbHNhLmRldi9wcm92ZW5hbmNlL3YxIiwicHJlZGljYXRlIjp7fX0=\"\x7d\x7d"
    "q.intoto.jsonl" rfl⟩

/-- C3 counterexample: a conversion with certificate bytes present writes
the .crt file whose content ends with the bare footer marker — the footer
is not newline-terminated, contradicting the final clause of the claim. -/
theorem C3_counterexample_footer_no_newline :
    (extract_provenance_from_github_attestation "a.jsonl"
      "\x7b\"dsseEnvelope\":\x7b\"payload\":\"eyJwcmVkaWNhdGVUeXBlIjoiaHR0cHM6Ly9zbHNhLmRldi9wcm92ZW5hbmNlL3YxIn0=\"\x7d,\"verificationMaterial\":\x7b\"certificate\":\x7b\"rawBytes\":\"AQIDBPo=\"\x7d\x7d\x7d"
      "out2.intoto.jsonl").writes.head? =
      some ("out2.intoto.crt",
        "-----BEGIN CERTIFICATE-----\nAQIDBPo=\n-----END CERTIFICATE-----") ∧
    "-----BEGIN CERTIFICATE-----\nAQIDBPo=\n-----END CERTIFICATE-----".data.getLast?
      = some '-' :=
  ⟨rfl, by decide⟩

/-- C3 amended: on an input that passes the earlier validation steps and
whose verificationMaterial.certificate.rawBytes is a non-empty string of
valid base64, the converter writes (first, before the JSON outputs) a
certificate file at the .crt sibling path whose content is the fixed BEGIN
marker line, the re-encoded base64 data wrapped into 64-character lines
each ending in a newline, and the fixed END marker with no trailing
newline. -/
theorem C3_certificate_pem_format
    (p content out : String) (att env pb : Json) (pj : String)
    (stmt vm cert : Json) (s : String) (bytes : List Nat)
    (h1 : jsonLoads (pyStrip (firstLine content)) = .ok att)
    (h2 : Json.getD att "dsseEnvelope" (Json.obj []) = .ok env)
    (h3 : env.isTruthy = true)
    (h4 : Json.getD env "payload" (Json.str "") = .ok pb)
    (h5 : pb.isTruthy = true)
    (h6 : decodePayload pb = .ok pj)
    (h7 : jsonLoads pj = .ok stmt)
    (h8 : Json.getD stmt "predicateType" Json.null = .ok (Json.str slsaPredicateType))
    (h9 : Json.getD att "verificationMaterial" (Json.obj []) = .ok vm)
    (h10 : Json.getD vm "certificate" (Json.obj []) = .ok cert)
    (h11 : Json.getD cert "rawBytes" (Json.str "") = .ok (Json.str s))
    (h12 : s.isEmpty = false)
    (h13 : b64decode s = .ok bytes) :
    (extract_provenance_from_github_attestation p content out).writes.head? =
      some (withSuffix out ".crt",
        "-----BEGIN CERTIFICATE-----\n" ++
        String.join ((chunks64 (b64encodeBytes bytes).data).map (fun line => line ++ "\n")) ++
        "-----END CERTIFICATE-----") := by
  unfold extract_provenance_from_github_attestation
  have hcert : certStep (Json.str s) out =
      .ok ([(withSuffix out ".crt", pemFormat (b64encodeBytes bytes))],
           [Msg.certSaved (withSuffix out ".crt")]) := by
    simp [certStep, Json.isTruthy, h12, b64decodeJson, h13]
  simp only [h1, h2, h3, h4, h5, h6, h7, h8, h9, h10, h11, hcert]
  rcases hK : Json.getD env "payloadType" (Json.str "application/vnd.in-toto+json")
      with e | ptv
  · simp [failResult, pemFormat]
  rcases hL : Json.getD env "signatures" (Json.arr []) with e | sgv
  · simp [failResult, pemFormat]
  rcases hs : summaryMsgs stmt with ⟨sms, err⟩
  rcases err with e | _ <;> simp [failResult, pemFormat]

theorem C3_certificate_pem_format_witness :
    (extract_provenance_from_github_attestation "a.jsonl"
      "\x7b\"dsseEnvelope\":\x7b\"payload\":\"eyJwcmVkaWNhdGVUeXBlIjoiaHR0cHM6Ly9zbHNhLmRldi9wcm92ZW5hbmNlL3YxIn0=\"\x7d,\"verificationMaterial\":\x7b\"certificate\":\x7b\"rawBytes\":\"AQIDBPo=\"\x7d\x7d\x7d"
      "out3.intoto.jsonl").writes.head? =
      some (withSuffix "out3.intoto.jsonl" ".crt",
        "-----BEGIN CERTIFICATE-----\n" ++
        String.join ((chunks64 (b64encodeBytes [1, 2, 3, 4, 250]).data).map
          (fun line => line ++ "\n")) ++
        "-----END CERTIFICATE-----") :=
  C3_certificate_pem_format "a.jsonl"
    "\x7b\"dsseEnvelope\":\x7b\"payload\":\"eyJwcmVkaWNhdGVUeXBlIjoiaHR0cHM6Ly9zbHNhLmRldi9wcm92ZW5hbmNlL3YxIn0=\"\x7d,\"verificationMaterial\":\x7b\"certificate\":\x7b\"rawBytes\":\"AQIDBPo=\"\x7d\x7d\x7d"
    "out3.intoto.jsonl"
    (Json.obj [("dsseEnvelope", Json.obj [("payload",
        Json.str "eyJwcmVkaWNhdGVUeXBlIjoiaHR0cHM6Ly9zbHNhLmRldi9wcm92ZW5hbmNlL3YxIn0=")]),
      ("verificationMaterial", Json.obj [("certificate", Json.obj
        [("rawBytes", Json.str "AQIDBPo=")])])])
    (Json.obj [("payload",
      Json.str "eyJwcmVkaWNhdGVUeXBlIjoiaHR0cHM6Ly9zbHNhLmRldi9wcm92ZW5hbmNlL3YxIn0=")])
    (Json.str "eyJwcmVkaWNhdGVUeXBlIjoiaHR0cHM6Ly9zbHNhLmRldi9wcm92ZW5hbmNlL3YxIn0=")
    "\x7b\"predicateType\":\"https://slsa.dev/provenance/v1\"\x7d"
    (Json.obj [("predicateType", Json.str "https://slsa.dev/provenance/v1")])
    (Json.obj [("certificate", Json.obj [("rawBytes", Json.str "AQIDBPo=")])])
    (Json.obj [("rawBytes", Json.str "AQIDBPo=")])
    "AQIDBPo=" [1, 2, 3, 4, 250]
    rfl rfl rfl rfl rfl rfl rfl rfl rfl rfl rfl rfl rfl

/-- A summary that completes without an exception ends with the builder-id
line, holding the value the chained .get calls produced. -/
theorem summaryMsgs_none_shape (stmt : Json) (sms : List Msg)
    (h : summaryMsgs stmt = (sms, none)) :
    ∃ pre v, sms = pre ++ [Msg.builderIdLine v] ∧ builderIdOf stmt = .ok v := by
  unfold summaryMsgs at h
  rcases h1 : Json.getD stmt "predicateType" Json.null with e | pt
  all_goals simp only [h1] at h
  · simp at h
  rcases h2 : Json.getD stmt "subject" (Json.arr []) with e | subj
  all_goals simp only [h2] at h
  · simp at h
  rcases h3 : pyLen subj with e | n
  all_goals simp only [h3] at h
  · simp at h
  rcases h4 : iterItems subj with e | items
  all_goals simp only [h4] at h
  · simp at h
  rcases h5 : summarySubjects 1 items with ⟨subjMsgs, err⟩
  rw [h5] at h
  cases err with
  | some e => simp at h
  | none =>
    rcases h6 : builderIdOf stmt with e | v
    all_goals simp only [h6] at h
    · simp at h
    · have hl := congrArg Prod.fst h
      simp only at hl
      exact ⟨[Msg.predicateTypeInfo pt, Msg.subjectsCount n] ++ subjMsgs, v,
        by rw [← hl]; try simp
        , rfl⟩

/-- The value the chained .get calls of the code produce, whenever they raise no
exception, is exactly the value the specification describes: the full path
value when present, Unknown when a segment is missing. -/
theorem builderIdOf_eq_claimed (stmt v : Json) (h : builderIdOf stmt = .ok v) :
    v = claimedBuilderId stmt := by
  unfold builderIdOf at h
  unfold claimedBuilderId
  rcases stmt with _ | _ | _ | _ | _ | fs
  case obj =>
    simp only [Json.getD] at h
    rcases hp : lookupField fs "predicate" with _ | p1
    · simp only [hp, Option.getD] at h ⊢
      simp [Json.getD, lookupField] at h
      simp [h]
    · simp only [hp, Option.getD] at h ⊢
      rcases p1 with _ | _ | _ | _ | _ | fs2
      case obj =>
        simp only [Json.getD] at h
        rcases hr : lookupField fs2 "runDetails" with _ | p2
        · simp only [hr, Option.getD] at h ⊢
          simp [Json.getD, lookupField] at h
          simp [h]
        · simp only [hr, Option.getD] at h ⊢
          rcases p2 with _ | _ | _ | _ | _ | fs3
          case obj =>
            simp only [Json.getD] at h
            rcases hb : lookupField fs3 "builder" with _ | p3
            · simp only [hb, Option.getD] at h ⊢
              simp [Json.getD, lookupField] at h
              simp [h]
            · simp only [hb, Option.getD] at h ⊢
              rcases p3 with _ | _ | _ | _ | _ | fs4
              case obj =>
                simp only [Json.getD] at h
                rcases hid : lookupField fs4 "id" with _ | w
                all_goals simp only [hid, Option.getD] at h ⊢
                all_goals simp at h
                all_goals simp [h]
              all_goals simp [Json.getD] at h
          all_goals simp [Json.getD] at h
      all_goals simp [Json.getD] at h
  all_goals simp [Json.getD] at h

/-- C9: whenever a run prints its summary (the run returns True), the
builder id it reports is the value of the
predicate.runDetails.builder.id path of the statement when every segment is present, and
the string Unknown when a segment along the path is missing — the last
message of the run is the builder-id line with exactly that value. -/
theorem C9_builder_id_reported
    (p content out : String) (att env pb : Json) (pj : String) (stmt : Json)
    (h1 : jsonLoads (pyStrip (firstLine content)) = .ok att)
    (h2 : Json.getD att "dsseEnvelope" (Json.obj []) = .ok env)
    (h4 : Json.getD env "payload" (Json.str "") = .ok pb)
    (h6 : decodePayload pb = .ok pj)
    (h7 : jsonLoads pj = .ok stmt)
    (hs : (extract_provenance_from_github_attestation p content out).success = true) :
    ∃ ms, (extract_provenance_from_github_attestation p content out).msgs =
      ms ++ [Msg.builderIdLine (claimedBuilderId stmt)] := by
  obtain ⟨att', env', pb', pj', stmt', vm, cert, raw, ws0, ms0, ptv, sgv, sms,
    hA, hB, htru, hC, htru2, hD, hE, hF, hG, hH, hI, hJ, hK, hL, hM, hr⟩ :=
    extract_success_inversion p content out hs
  have e1 : att = att' := by
    have hx := h1.symm.trans hA
    injection hx with e
  subst e1
  have e2 : env = env' := by
    have hx := h2.symm.trans hB
    injection hx with e
  subst e2
  have e3 : pb = pb' := by
    have hx := h4.symm.trans hC
    injection hx with e
  subst e3
  have e4 : pj = pj' := by
    have hx := h6.symm.trans hD
    injection hx with e
  subst e4
  have e5 : stmt = stmt' := by
    have hx := h7.symm.trans hE
    injection hx with e
  subst e5
  obtain ⟨pre, v, hsms, hok⟩ := summaryMsgs_none_shape stmt sms hM
  have hv := builderIdOf_eq_claimed stmt v hok
  refine ⟨(ms0 ++ [Msg.successBanner, Msg.inputLabel p, Msg.dsseLabel out,
    Msg.plainLabel (withSuffix out ".slsa.json"),
    Msg.bundleLabel (withSuffix out ".bundle.json"),
    Msg.provenanceInfoHeader]) ++ pre, ?_⟩
  rw [hr]
  simp [hsms, hv, List.append_assoc]

theorem C9_builder_id_reported_witness :
    ∃ ms, (extract_provenance_from_github_attestation "d.jsonl"
      "\x7b\"dsseEnvelope\":\x7b\"payload\":\"eyJwcmVkaWNhdGVUeXBlIjoiaHR0cHM6Ly9zbHNhLmRldi9wcm92ZW5hbmNlL3YxIiwic3ViamVjdCI6W3sibmFtZSI6ImEifV0sInByZWRpY2F0ZSI6eyJydW5EZXRhaWxzIjp7ImJ1aWxkZXIiOnsiaWQiOiJCIn19fX0=\"\x7d\x7d"
      "r.intoto.jsonl").msgs =
      ms ++ [Msg.builderIdLine (claimedBuilderId (Json.obj
        [("predicateType", Json.str "https://slsa.dev/provenance/v1"),
         ("subject", Json.arr [Json.obj [("name", Json.str "a")]]),
         ("predicate", Json.obj [("runDetails", Json.obj
           [("builder", Json.obj [("id", Json.str "B")])])])]))] :=
  C9_builder_id_reported "d.jsonl"
    "\x7b\"dsseEnvelope\":\x7b\"payload\":\"eyJwcmVkaWNhdGVUeXBlIjoiaHR0cHM6Ly9zbHNhLmRldi9wcm92ZW5hbmNlL3YxIiwic3ViamVjdCI6W3sibmFtZSI6ImEifV0sInByZWRpY2F0ZSI6eyJydW5EZXRhaWxzIjp7ImJ1aWxkZXIiOnsiaWQiOiJCIn19fX0=\"\x7d\x7d"
    "r.intoto.jsonl"
    (Json.obj [("dsseEnvelope", Json.obj [("payload",
      Json.str "eyJwcmVkaWNhdGVUeXBlIjoiaHR0cHM6Ly9zbHNhLmRldi9wcm92ZW5hbmNlL3YxIiwic3ViamVjdCI6W3sibmFtZSI6ImEifV0sInByZWRpY2F0ZSI6eyJydW5EZXRhaWxzIjp7ImJ1aWxkZXIiOnsiaWQiOiJCIn19fX0=")])])
    (Json.obj [("payload",
      Json.str "eyJwcmVkaWNhdGVUeXBlIjoiaHR0cHM6Ly9zbHNhLmRldi9wcm92ZW5hbmNlL3YxIiwic3ViamVjdCI6W3sibmFtZSI6ImEifV0sInByZWRpY2F0ZSI6eyJydW5EZXRhaWxzIjp7ImJ1aWxkZXIiOnsiaWQiOiJCIn19fX0=")])
    (Json.str "eyJwcmVkaWNhdGVUeXBlIjoiaHR0cHM6Ly9zbHNhLmRldi9wcm92ZW5hbmNlL3YxIiwic3ViamVjdCI6W3sibmFtZSI6ImEifV0sInByZWRpY2F0ZSI6eyJydW5EZXRhaWxzIjp7ImJ1aWxkZXIiOnsiaWQiOiJCIn19fX0=")
    "\x7b\"predicateType\":\"https://slsa.dev/provenance/v1\",\"subject\":[\x7b\"name\":\"a\"\x7d],\"predicate\":\x7b\"runDetails\":\x7b\"builder\":\x7b\"id\":\"B\"\x7d\x7d\x7d\x7d"
    (Json.obj
      [("predicateType", Json.str "https://slsa.dev/provenance/v1"),
       ("subject", Json.arr [Json.obj [("name", Json.str "a")]]),
       ("predicate", Json.obj [("runDetails", Json.obj
         [("builder", Json.obj [("id", Json.str "B")])])])])
    rfl rfl rfl rfl rfl rfl

end ZobraSlsa
